import Mathlib

/-!
Verification development for the `fuel_opt` core of the Astraeus repository.

The Python source is shallowly embedded over the rationals.  Floating-point
transcendental primitives (`np.sqrt`, `np.exp`, trigonometric functions,
`np.pi`) and the IEEE infinity sentinel `float('inf')` have no exact rational
counterpart; they are abstracted into a record of function parameters
(`Transcend`).  Every embedded operation takes such a record, and theorems
quantify over it, adding only true facts about the real functions (for example
`exp 0 = 1`, `0 ≤ exp t`) as hypotheses where a claim needs them.  Division is
the Lean total division on `ℚ` (`x / 0 = 0`); the source never divides by zero
on the inputs the theorems speak about.
-/

set_option linter.unusedVariables false

/-- Abstraction of the numpy transcendental primitives used by the source,
plus `np.pi` and the `float('inf')` sentinel. -/
structure Transcend where
  sqrt : ℚ → ℚ
  exp : ℚ → ℚ
  sin : ℚ → ℚ
  cos : ℚ → ℚ
  tan : ℚ → ℚ
  asin : ℚ → ℚ
  acos : ℚ → ℚ
  atan : ℚ → ℚ
  sinh : ℚ → ℚ
  cosh : ℚ → ℚ
  tanh : ℚ → ℚ
  asinh : ℚ → ℚ
  atanh : ℚ → ℚ
  pi : ℚ
  inf : ℚ

/-- A concrete instantiation (every primitive constantly 1, pi = 1, inf = 10^9)
used to evaluate the embedding on closed inputs. -/
def unitT : Transcend :=
  ⟨fun _ => 1, fun _ => 1, fun _ => 1, fun _ => 1, fun _ => 1, fun _ => 1,
   fun _ => 1, fun _ => 1, fun _ => 1, fun _ => 1, fun _ => 1, fun _ => 1,
   fun _ => 1, 1, 1000000000⟩

/-- 3-component vector (numpy arrays of length 3 in the source). -/
structure Vec3 where
  x : ℚ
  y : ℚ
  z : ℚ
deriving DecidableEq

def Vec3.add (a b : Vec3) : Vec3 := ⟨a.x + b.x, a.y + b.y, a.z + b.z⟩

def Vec3.sub (a b : Vec3) : Vec3 := ⟨a.x - b.x, a.y - b.y, a.z - b.z⟩

def Vec3.smul (c : ℚ) (a : Vec3) : Vec3 := ⟨c * a.x, c * a.y, c * a.z⟩

def Vec3.dot (a b : Vec3) : ℚ := a.x * b.x + a.y * b.y + a.z * b.z

def Vec3.cross (a b : Vec3) : Vec3 :=
  ⟨a.y * b.z - a.z * b.y, a.z * b.x - a.x * b.z, a.x * b.y - a.y * b.x⟩

/-- `np.linalg.norm`: square root of the sum of squares. -/
def vnorm (T : Transcend) (a : Vec3) : ℚ := T.sqrt (a.x ^ 2 + a.y ^ 2 + a.z ^ 2)

/-- `OrbitalState` dataclass: position (km), velocity (km/s), epoch. -/
structure OrbitalState where
  position : Vec3
  velocity : Vec3
  epoch : ℚ
deriving DecidableEq

/-- `OrbitalElements` dataclass fields (before `__post_init__` runs). -/
structure OrbitalElements where
  semi_major_axis : ℚ
  eccentricity : ℚ
  inclination : ℚ
  argument_of_periapsis : ℚ
  longitude_of_ascending_node : ℚ
  true_anomaly : ℚ
deriving DecidableEq

/-- `np.radians`: degrees to radians. -/
def radians (T : Transcend) (x : ℚ) : ℚ := x * T.pi / 180

/-- `OrbitalElements.__post_init__`: each angle whose absolute value exceeds
2*pi is treated as degrees and multiplied by pi/180; others are unchanged. -/
def orbital_elements_post_init (T : Transcend) (e : OrbitalElements) : OrbitalElements :=
  { e with
    inclination :=
      if |e.inclination| > 2 * T.pi then radians T e.inclination else e.inclination
    argument_of_periapsis :=
      if |e.argument_of_periapsis| > 2 * T.pi then radians T e.argument_of_periapsis
      else e.argument_of_periapsis
    longitude_of_ascending_node :=
      if |e.longitude_of_ascending_node| > 2 * T.pi then
        radians T e.longitude_of_ascending_node
      else e.longitude_of_ascending_node
    true_anomaly :=
      if |e.true_anomaly| > 2 * T.pi then radians T e.true_anomaly else e.true_anomaly }

/-- Constructing `OrbitalElements(...)` in Python runs `__post_init__`. -/
def mkOrbitalElements (T : Transcend) (a e i w om nu : ℚ) : OrbitalElements :=
  orbital_elements_post_init T ⟨a, e, i, w, om, nu⟩

/-- Earth gravitational parameter, km^3/s^2 (`self.mu_earth = 398600.4418`). -/
def mu_earth : ℚ := 3986004418 / 10000

/-- Earth radius in km (`self.earth_radius = 6371.0`). -/
def earth_radius : ℚ := 6371

/-- Standard gravity, m/s^2 (`self.g0 = 9.80665`). -/
def g0 : ℚ := 980665 / 100000

/-- Rotation about the Z axis applied to a vector
(`OrbitalMechanics._rotation_matrix_z` times a vector). -/
def rot_z (T : Transcend) (angle : ℚ) (v : Vec3) : Vec3 :=
  let c := T.cos angle
  let s := T.sin angle
  ⟨c * v.x - s * v.y, s * v.x + c * v.y, v.z⟩

/-- Rotation about the X axis applied to a vector
(`OrbitalMechanics._rotation_matrix_x` times a vector). -/
def rot_x (T : Transcend) (angle : ℚ) (v : Vec3) : Vec3 :=
  let c := T.cos angle
  let s := T.sin angle
  ⟨v.x, c * v.y - s * v.z, s * v.y + c * v.z⟩

/-- `OrbitalMechanics.state_to_elements`.  The `float('inf')` semi-major axis
of the unbound branch is represented by the abstract sentinel `T.inf`. -/
def state_to_elements (T : Transcend) (state : OrbitalState) : OrbitalElements :=
  let r := state.position
  let v := state.velocity
  let h := r.cross v
  let h_mag := vnorm T h
  let e_vec := (Vec3.smul (1 / mu_earth) (v.cross h)).sub (Vec3.smul (1 / vnorm T r) r)
  let e := vnorm T e_vec
  let v_mag := vnorm T v
  let r_mag := vnorm T r
  let energy := v_mag ^ 2 / 2 - mu_earth / r_mag
  let a := if energy < 0 then -mu_earth / (2 * energy) else T.inf
  let i := T.acos (h.z / h_mag)
  let n : Vec3 := (Vec3.cross ⟨0, 0, 1⟩ h)
  let n_mag := vnorm T n
  let omega :=
    if n_mag > 0 then
      let om0 := T.acos (n.x / n_mag)
      if n.y < 0 then 2 * T.pi - om0 else om0
    else 0
  let w :=
    if n_mag > 0 ∧ e > 0 then
      let w0 := T.acos (n.dot e_vec / (n_mag * e))
      if e_vec.z < 0 then 2 * T.pi - w0 else w0
    else 0
  let nu :=
    if e > 0 then
      let nu0 := T.acos (e_vec.dot r / (e * r_mag))
      if r.dot v < 0 then 2 * T.pi - nu0 else nu0
    else 0
  mkOrbitalElements T a e i w omega nu

/-- `OrbitalMechanics.elements_to_state`. -/
def elements_to_state (T : Transcend) (el : OrbitalElements) (epoch : ℚ) : OrbitalState :=
  let a := el.semi_major_axis
  let e := el.eccentricity
  let i := el.inclination
  let w := el.argument_of_periapsis
  let omega := el.longitude_of_ascending_node
  let nu := el.true_anomaly
  let r_mag :=
    if e < 1 then a * (1 - e ^ 2) / (1 + e * T.cos nu)
    else a * (e ^ 2 - 1) / (1 + e * T.cos nu)
  let r_orbital : Vec3 := ⟨r_mag * T.cos nu, r_mag * T.sin nu, 0⟩
  let v_orbital : Vec3 :=
    if e < 1 then
      Vec3.smul (T.sqrt (mu_earth / (a * (1 - e ^ 2)))) ⟨-(T.sin nu), e + T.cos nu, 0⟩
    else
      Vec3.smul (T.sqrt (mu_earth / (a * (e ^ 2 - 1)))) ⟨-(T.sin nu), e + T.cos nu, 0⟩
  let rotate := fun (vec : Vec3) => rot_z T omega (rot_x T i (rot_z T w vec))
  ⟨rotate r_orbital, rotate v_orbital, epoch⟩

/-- `OrbitalMechanics.propagate_orbit`: element conversion, mean-anomaly
advance, fixed 10-iteration Kepler fixed-point solve, conversion back. -/
def propagate_orbit (T : Transcend) (state : OrbitalState) (time : ℚ) : OrbitalState :=
  let el := state_to_elements T state
  let e := el.eccentricity
  let n :=
    if e < 1 then T.sqrt (mu_earth / el.semi_major_axis ^ 3)
    else T.sqrt (mu_earth / |el.semi_major_axis| ^ 3)
  let M :=
    if e < 1 then
      let E := 2 * T.atan (T.sqrt ((1 - e) / (1 + e)) * T.tan (el.true_anomaly / 2))
      E - e * T.sin E
    else
      let H := 2 * T.atanh (T.sqrt ((e - 1) / (e + 1)) * T.tan (el.true_anomaly / 2))
      e * T.sinh H - H
  let M_new := M + n * time
  let nu_new :=
    if e < 1 then
      let E_new := (fun E => M_new + e * T.sin E)^[10] M_new
      2 * T.atan (T.sqrt ((1 + e) / (1 - e)) * T.tan (E_new / 2))
    else
      let H_new := (fun H => (M_new + e * T.sinh H) / e)^[10] (M_new / e)
      2 * T.atan (T.sqrt ((e + 1) / (e - 1)) * T.tanh (H_new / 2))
  let new_el := mkOrbitalElements T el.semi_major_axis e el.inclination
    el.argument_of_periapsis el.longitude_of_ascending_node nu_new
  elements_to_state T new_el (state.epoch + time)

/-- Result record of `OrbitalMechanics.calculate_hohmann_transfer`. -/
structure HohmannParams where
  delta_v1 : ℚ
  delta_v2 : ℚ
  total_delta_v : ℚ
  transfer_time : ℚ
  transfer_semi_major_axis : ℚ
deriving DecidableEq

/-- `OrbitalMechanics.calculate_hohmann_transfer`. -/
def calculate_hohmann_transfer (T : Transcend) (r1 r2 : ℚ) : HohmannParams :=
  let a_transfer := (r1 + r2) / 2
  let v1_circular := T.sqrt (mu_earth / r1)
  let v1_transfer := T.sqrt (mu_earth * (2 / r1 - 1 / a_transfer))
  let delta_v1 := |v1_transfer - v1_circular|
  let v2_transfer := T.sqrt (mu_earth * (2 / r2 - 1 / a_transfer))
  let v2_circular := T.sqrt (mu_earth / r2)
  let delta_v2 := |v2_circular - v2_transfer|
  let total_delta_v := delta_v1 + delta_v2
  let transfer_time := T.pi * T.sqrt (a_transfer ^ 3 / mu_earth)
  ⟨delta_v1, delta_v2, total_delta_v, transfer_time, a_transfer⟩

/-- Typed outcomes of `OrbitalMechanics.calculate_lambert_transfer`.  The
source raises `ValueError` when the requested time is below the
minimum-energy transfer time; on the other branch it evaluates `np.cot`,
an attribute that does not exist in numpy, so the velocity computation
raises `AttributeError` before any value is returned. -/
inductive LambertOutcome where
  | time_below_minimum : LambertOutcome
  | numpy_missing_cot : LambertOutcome
deriving DecidableEq

/-- `np.clip(x, -1, 1)`. -/
def clip1 (x : ℚ) : ℚ := max (-1) (min 1 x)

/-- The minimum-energy transfer time computed at the top of
`calculate_lambert_transfer` (variable `t_min`). -/
def lambert_min_time (T : Transcend) (r1 r2 : Vec3) : ℚ :=
  let r1_mag := vnorm T r1
  let r2_mag := vnorm T r2
  let cos_theta := r1.dot r2 / (r1_mag * r2_mag)
  let c := T.sqrt (r1_mag ^ 2 + r2_mag ^ 2 - 2 * r1_mag * r2_mag * cos_theta)
  let s := (r1_mag + r2_mag + c) / 2
  let a_min := s / 2
  let alpha_min := 2 * T.asin (T.sqrt (s / (2 * a_min)))
  let beta_min := 2 * T.asin (T.sqrt ((s - c) / (2 * a_min)))
  T.sqrt (a_min ^ 3 / mu_earth) *
    (alpha_min - beta_min - (T.sin alpha_min - T.sin beta_min))

/-- One Newton step on the semi-major axis inside
`calculate_lambert_transfer` (computation of `a_new` from `a`). -/
def lambert_newton_step (T : Transcend) (s c time a : ℚ) : ℚ :=
  if a > 0 then
    let alpha := 2 * T.asin (T.sqrt (s / (2 * a)))
    let beta := 2 * T.asin (T.sqrt ((s - c) / (2 * a)))
    let t_calc := T.sqrt (a ^ 3 / mu_earth) * (alpha - beta - (T.sin alpha - T.sin beta))
    let dt_da := 3 * t_calc / (2 * a)
    a - (t_calc - time) / dt_da
  else
    let alpha := 2 * T.asinh (T.sqrt (s / (2 * |a|)))
    let beta := 2 * T.asinh (T.sqrt ((s - c) / (2 * |a|)))
    let t_calc := T.sqrt (|a| ^ 3 / mu_earth) * (T.sinh alpha - T.sinh beta - (alpha - beta))
    let dt_da := 3 * t_calc / (2 * a)
    a - (t_calc - time) / dt_da

/-- The 10-iteration Newton loop of `calculate_lambert_transfer`; the break
keeps the previous iterate `a` when `|a_new - a| < 1e-6`. -/
def lambert_newton_loop (T : Transcend) (s c time : ℚ) : ℕ → ℚ → ℚ
  | 0, a => a
  | k + 1, a =>
      let a_new := lambert_newton_step T s c time a
      if |a_new - a| < 1 / 1000000 then a
      else lambert_newton_loop T s c time k a_new

/-- `OrbitalMechanics.calculate_lambert_transfer`.  After the Newton loop the
source computes `A = np.sqrt(...) * (np.cot(alpha/2) + np.cot(beta/2))`;
numpy has no attribute `cot`, so this line raises `AttributeError`
unconditionally and the function can never return a velocity pair. -/
def calculate_lambert_transfer (T : Transcend) (r1 r2 : Vec3) (time : ℚ)
    (prograde : Bool) : Except LambertOutcome (Vec3 × Vec3) :=
  let r1_mag := vnorm T r1
  let r2_mag := vnorm T r2
  let cos_theta := r1.dot r2 / (r1_mag * r2_mag)
  let _theta0 := T.acos (clip1 cos_theta)
  let _theta := if prograde then _theta0 else 2 * T.pi - _theta0
  let c := T.sqrt (r1_mag ^ 2 + r2_mag ^ 2 - 2 * r1_mag * r2_mag * cos_theta)
  let s := (r1_mag + r2_mag + c) / 2
  if time < lambert_min_time T r1 r2 then
    Except.error LambertOutcome.time_below_minimum
  else
    let _a := lambert_newton_loop T s c time 10 (s / 2)
    Except.error LambertOutcome.numpy_missing_cot

/-- `PropulsionType` enum. -/
inductive PropulsionType where
  | chemical
  | electric
  | ion
  | hall_effect
  | solar_sail
  | nuclear
deriving DecidableEq

/-- `PropulsionSystem` dataclass. -/
structure PropulsionSystem where
  name : String
  propulsion_type : PropulsionType
  thrust : ℚ
  specific_impulse : ℚ
  power_consumption : ℚ
  efficiency : ℚ
  dry_mass : ℚ
  fuel_mass : ℚ
deriving DecidableEq

/-- `FuelConsumption` dataclass. -/
structure FuelConsumption where
  delta_v : ℚ
  fuel_mass : ℚ
  burn_time : ℚ
  energy_consumed : ℚ
deriving DecidableEq

/-- The `'monopropellant'` entry of the seeded catalog. -/
def monopropellant : PropulsionSystem :=
  ⟨"Monopropellant Hydrazine", PropulsionType.chemical, 22, 230, 0, 19/20, 5/2, 10⟩

/-- The `'bipropellant'` entry of the seeded catalog. -/
def bipropellant : PropulsionSystem :=
  ⟨"Bipropellant N2O4/MMH", PropulsionType.chemical, 490, 310, 0, 49/50, 8, 25⟩

/-- The `'ion_thruster'` entry of the seeded catalog. -/
def ion_thruster : PropulsionSystem :=
  ⟨"Ion Thruster XIPS-25", PropulsionType.ion, 33/200, 3500, 4500, 13/20, 15, 5⟩

/-- The `'hall_thruster'` entry of the seeded catalog. -/
def hall_thruster : PropulsionSystem :=
  ⟨"Hall Effect Thruster", PropulsionType.hall_effect, 83/100, 1600, 1350, 11/20, 8, 3⟩

/-- `PropulsionModel.propulsion_systems`: the seeded systems, in dictionary
insertion order. -/
def propulsion_systems : List PropulsionSystem :=
  [monopropellant, bipropellant, ion_thruster, hall_thruster]

/-- `PropulsionModel.calculate_fuel_consumption`. -/
def calculate_fuel_consumption (T : Transcend) (ps : PropulsionSystem)
    (delta_v satellite_mass : ℚ) : FuelConsumption :=
  let delta_v_ms := delta_v * 1000
  match ps.propulsion_type with
  | PropulsionType.chemical =>
      let fuel_mass :=
        satellite_mass * (1 - T.exp (-delta_v_ms / (ps.specific_impulse * g0)))
      let burn_time := fuel_mass * ps.specific_impulse * g0 / ps.thrust
      let energy_consumed := fuel_mass * 1000000
      ⟨delta_v, fuel_mass, burn_time, energy_consumed⟩
  | PropulsionType.electric | PropulsionType.ion | PropulsionType.hall_effect =>
      let power_available := ps.power_consumption * ps.efficiency
      let thrust_power := ps.thrust * ps.specific_impulse * g0 / 2
      let effective_isp := ps.specific_impulse * min 1 (power_available / thrust_power)
      let fuel_mass :=
        satellite_mass * (1 - T.exp (-delta_v_ms / (effective_isp * g0)))
      let burn_time := fuel_mass * effective_isp * g0 / ps.thrust
      let energy_consumed := power_available * burn_time
      ⟨delta_v, fuel_mass, burn_time, energy_consumed⟩
  | _ => ⟨delta_v, 0, 0, 0⟩

/-- The call `calculate_fuel_consumption(propulsion_system, ...)` where the
system argument may be Python `None`: attribute access
`propulsion_system.propulsion_type` on `None` raises `AttributeError`,
modeled by `none`. -/
def calculate_fuel_consumption_opt (T : Transcend) (ps? : Option PropulsionSystem)
    (delta_v satellite_mass : ℚ) : Option FuelConsumption :=
  match ps? with
  | none => none
  | some ps => some (calculate_fuel_consumption T ps delta_v satellite_mass)

/-- The constraints dictionary consumed by `calculate_optimal_propulsion`,
`_check_constraints` and `_calculate_system_score`: a key is present
(`some`) or absent (`none`). -/
structure Constraints where
  max_total_mass : Option ℚ := none
  max_power : Option ℚ := none
  max_burn_time : Option ℚ := none
  max_fuel_mass : Option ℚ := none
  mass_weight : Option ℚ := none
  power_weight : Option ℚ := none
  time_weight : Option ℚ := none
  efficiency_bonus : Option ℚ := none
deriving DecidableEq

/-- `PropulsionModel._check_constraints`.  Note: the power check is applied
only when the system's power consumption is strictly positive. -/
def check_constraints (sys : PropulsionSystem) (cons : FuelConsumption)
    (c : Constraints) : Bool :=
  (match c.max_total_mass with
   | some limit => decide (sys.dry_mass + sys.fuel_mass + cons.fuel_mass ≤ limit)
   | none => true) &&
  (match c.max_power with
   | some limit =>
       if sys.power_consumption > 0 then decide (sys.power_consumption ≤ limit) else true
   | none => true) &&
  (match c.max_burn_time with
   | some limit => decide (cons.burn_time ≤ limit)
   | none => true) &&
  (match c.max_fuel_mass with
   | some limit => decide (cons.fuel_mass ≤ limit)
   | none => true)

/-- `PropulsionModel._calculate_system_score` (lower is better). -/
def calculate_system_score (sys : PropulsionSystem) (cons : FuelConsumption)
    (c : Constraints) : ℚ :=
  c.mass_weight.getD 1 * (sys.dry_mass + cons.fuel_mass)
    + c.power_weight.getD (1/10) * sys.power_consumption
    + c.time_weight.getD (1/100) * cons.burn_time
    - c.efficiency_bonus.getD (1/2) * sys.efficiency

/-- One iteration of the catalog scan in
`PropulsionModel.calculate_optimal_propulsion`: compute the consumption,
skip the system unless `_check_constraints` passes, and keep the
strictly better score (`float('inf')` before any feasible system is
`none`). -/
def optimal_propulsion_step (T : Transcend) (delta_v satellite_mass : ℚ) (c : Constraints)
    (best : Option (PropulsionSystem × FuelConsumption × ℚ)) (sys : PropulsionSystem) :
    Option (PropulsionSystem × FuelConsumption × ℚ) :=
  let cons := calculate_fuel_consumption T sys delta_v satellite_mass
  if check_constraints sys cons c then
    let score := calculate_system_score sys cons c
    match best with
    | none => some (sys, cons, score)
    | some (bs, bc, bscore) =>
        if score < bscore then some (sys, cons, score) else some (bs, bc, bscore)
  else best

/-- `PropulsionModel.calculate_optimal_propulsion`: scans the catalog keeping
the feasible system of strictly smallest score; `none` models the
`ValueError` raised when no system passes `_check_constraints`. -/
def calculate_optimal_propulsion (T : Transcend) (systems : List PropulsionSystem)
    (delta_v satellite_mass : ℚ) (c : Constraints) :
    Option (PropulsionSystem × FuelConsumption) :=
  (systems.foldl (optimal_propulsion_step T delta_v satellite_mass c) none).map
    (fun b => (b.1, b.2.1))

/-- `PropulsionModel.calculate_multi_burn_consumption` together with the
running `current_mass` (the second component is the mass left after the
last burn). -/
def multi_burn_aux (T : Transcend) (ps : PropulsionSystem) :
    List ℚ → ℚ → List FuelConsumption × ℚ
  | [], m => ([], m)
  | dv :: rest, m =>
      let cons := calculate_fuel_consumption T ps dv m
      let tail := multi_burn_aux T ps rest (m - cons.fuel_mass)
      (cons :: tail.1, tail.2)

/-- `PropulsionModel.calculate_multi_burn_consumption`. -/
def calculate_multi_burn_consumption (T : Transcend) (ps : PropulsionSystem)
    (delta_v_sequence : List ℚ) (satellite_mass : ℚ) : List FuelConsumption :=
  (multi_burn_aux T ps delta_v_sequence satellite_mass).1

/-- One entry of the `mission_profile` list consumed by
`calculate_total_mission_consumption`: the `delta_v` key is mandatory,
`name` and `initial_mass` are optional dictionary keys. -/
structure MissionPhase where
  delta_v : ℚ
  name : Option String := none
  initial_mass : Option ℚ := none
deriving DecidableEq

/-- One `phase_data` dictionary built inside
`calculate_total_mission_consumption`. -/
structure PhaseData where
  phase_name : String
  delta_v : ℚ
  fuel_mass : ℚ
  burn_time : ℚ
  energy_consumed : ℚ
  mass_before : ℚ
  mass_after : ℚ
deriving DecidableEq

/-- The dictionary returned by `calculate_total_mission_consumption`. -/
structure MissionTotals where
  total_fuel_mass : ℚ
  total_energy_consumed : ℚ
  total_burn_time : ℚ
  final_mass : ℚ
  phase_consumptions : List PhaseData
  propulsion_system : String
deriving DecidableEq

/-- The phase loop of `calculate_total_mission_consumption`: builds the
per-phase records and the running totals, threading `current_mass`. -/
def mission_loop (T : Transcend) (ps : PropulsionSystem) :
    List MissionPhase → ℕ → ℚ → List PhaseData × ℚ × ℚ × ℚ × ℚ
  | [], _, m => ([], 0, 0, 0, m)
  | phase :: rest, i, m =>
      let cons := calculate_fuel_consumption T ps phase.delta_v m
      let pd : PhaseData :=
        ⟨phase.name.getD ("Phase_" ++ toString (i + 1)), phase.delta_v,
         cons.fuel_mass, cons.burn_time, cons.energy_consumed,
         m, m - cons.fuel_mass⟩
      let tail := mission_loop T ps rest (i + 1) (m - cons.fuel_mass)
      (pd :: tail.1, cons.fuel_mass + tail.2.1, cons.energy_consumed + tail.2.2.1,
       cons.burn_time + tail.2.2.2.1, tail.2.2.2.2)

/-- `PropulsionModel.calculate_total_mission_consumption`.  On an empty
profile the source raises `IndexError` at `mission_profile[0]`, modeled by
`none`. -/
def calculate_total_mission_consumption (T : Transcend) (ps : PropulsionSystem)
    (mission_profile : List MissionPhase) : Option MissionTotals :=
  match mission_profile with
  | [] => none
  | p0 :: _ =>
      let current_mass := p0.initial_mass.getD 1000
      let res := mission_loop T ps mission_profile 0 current_mass
      some ⟨res.2.1, res.2.2.1, res.2.2.2.1, res.2.2.2.2, res.1, ps.name⟩

/-- `TrajectorySegment` dataclass (`propulsion_system=None` models the
Python default). -/
structure TrajectorySegment where
  start_time : ℚ
  end_time : ℚ
  start_state : OrbitalState
  end_state : OrbitalState
  delta_v : ℚ
  fuel_consumption : ℚ
  propulsion_system : Option PropulsionSystem := none
deriving DecidableEq

/-- The `convergence_info` dictionary carried by `OptimizedTrajectory`. -/
structure ConvergenceInfo where
  iterations : ℕ
  converged : Bool
deriving DecidableEq

/-- `OptimizedTrajectory` dataclass. -/
structure OptimizedTrajectory where
  segments : List TrajectorySegment
  total_delta_v : ℚ
  total_fuel_consumption : ℚ
  total_time : ℚ
  optimization_method : String
  convergence_info : ConvergenceInfo
deriving DecidableEq

/-- `TrajectoryOptimizer._apply_delta_v`: adds the delta-v (converted to
m/s) along the unit velocity direction. -/
def apply_delta_v (T : Transcend) (state : OrbitalState) (delta_v : ℚ) : OrbitalState :=
  let velocity_direction := Vec3.smul (1 / vnorm T state.velocity) state.velocity
  let new_velocity := state.velocity.add (Vec3.smul (delta_v * 1000) velocity_direction)
  ⟨state.position, new_velocity, state.epoch⟩

/-- `TrajectoryOptimizer._simple_two_impulse_transfer` (the multi-impulse
fallback). -/
def simple_two_impulse_transfer (T : Transcend) (initial_state target_state : OrbitalState)
    (ps : PropulsionSystem) : OptimizedTrajectory :=
  let delta_v1 := vnorm T (target_state.velocity.sub initial_state.velocity) / 1000
  let cons := calculate_fuel_consumption T ps delta_v1 1000
  let seg : TrajectorySegment :=
    ⟨0, 0, initial_state, target_state, delta_v1, cons.fuel_mass, some ps⟩
  ⟨[seg], delta_v1, cons.fuel_mass, 0, "Simple Two-Impulse", ⟨1, true⟩⟩

/-- `TrajectoryOptimizer._individual_to_trajectory`.  A genetic-algorithm
individual is its list of genes; the body is wrapped in
`try ... except: return None`, so any raised exception yields `none`.
The fuel computation is called with `None` as the propulsion system
(verbatim in the source: `calculate_fuel_consumption(None, delta_v, 1000.0)`),
which raises `AttributeError`; with zero impulses, `times[-1]` raises
`IndexError` on the empty list. -/
def individual_to_trajectory (T : Transcend) (individual : List ℚ)
    (initial_state target_state : OrbitalState) : Option OptimizedTrajectory :=
  let num_impulses := individual.length / 2
  let times := individual.take num_impulses
  let magnitudes := individual.drop num_impulses
  do
  let final := ← (List.range num_impulses).foldlM
    (fun (acc : OrbitalState × List TrajectorySegment × ℚ × ℚ) i => do
      let impulse_time := times.getD i 0 * 3600
      let coast_state := propagate_orbit T acc.1 impulse_time
      let delta_v := magnitudes.getD i 0 * 1
      let new_state := apply_delta_v T coast_state delta_v
      let cons := ← calculate_fuel_consumption_opt T none delta_v 1000
      let seg : TrajectorySegment :=
        ⟨impulse_time, impulse_time, coast_state, new_state, delta_v, cons.fuel_mass, none⟩
      pure (new_state, acc.2.1 ++ [seg], acc.2.2.1 + delta_v, acc.2.2.2 + cons.fuel_mass))
    (initial_state, [], 0, 0)
  let final_coast_time : ℚ := 3600
  let _final_state := propagate_orbit T final.1 final_coast_time
  let last_time := ← times.getLast?
  pure ⟨final.2.1, final.2.2.1, final.2.2.2, last_time * 3600 + final_coast_time,
        "Genetic Algorithm", ⟨1, true⟩⟩

/-- The `fitness_function` closure inside
`_genetic_algorithm_optimization`; `none` models `float('inf')`
(undecodable individual, raised exception, or violated time constraint;
note the Python truthiness test `if time_constraint and ...`). -/
def fitness_function (T : Transcend) (time_constraint : Option ℚ)
    (initial_state target_state : OrbitalState) (individual : List ℚ) : Option ℚ :=
  match individual_to_trajectory T individual initial_state target_state with
  | none => none
  | some trajectory =>
      let total_delta_v := (trajectory.segments.map (·.delta_v)).sum
      let total_fuel := (trajectory.segments.map (·.fuel_consumption)).sum
      let total_time := trajectory.total_time
      if (match time_constraint with
          | some tc => decide (¬ tc = 0 ∧ total_time > tc)
          | none => false) then none
      else some (total_fuel + total_time / 10 + (trajectory.segments.length : ℚ) / 100)

/-- Comparison of fitness values where `none` is `float('inf')`. -/
def fitness_lt : Option ℚ → Option ℚ → Bool
  | none, _ => false
  | some _, none => true
  | some a, some b => decide (a < b)

/-- `np.argmin` over a list of fitness values: index of the first minimum.
(`np.argmin` raises on an empty input; populations in the source always
have `population_size = 50` members, so the `0` returned here for `[]` is
outside the behavior the theorems rely on and they assume nonempty
populations.) -/
def argmin_fitness (scores : List (Option ℚ)) : ℕ :=
  match scores with
  | [] => 0
  | s0 :: rest =>
      (rest.foldl
        (fun (acc : ℕ × Option ℚ × ℕ) s =>
          if fitness_lt s acc.2.1 then (acc.2.2, s, acc.2.2 + 1) else (acc.1, acc.2.1, acc.2.2 + 1))
        (0, s0, 1)).1

/-- The generation loop of `_genetic_algorithm_optimization`.  The random
draws (initial population, tournament selection, crossover, mutation) are
abstracted into `pops`, the population present at each generation; the
loop logic — fitness evaluation, `np.argmin`, strict improvement test,
early stop after more than 50 generations without improvement — is kept.
Arguments: remaining generations (`self.max_iterations = 1000` at the
call site), current generation index, best fitness (`none` is
`float('inf')`), best individual (`none` is Python `None`), and the
no-improvement counter.  Returns the final best individual. -/
def ga_loop (T : Transcend) (time_constraint : Option ℚ)
    (initial_state target_state : OrbitalState) (pops : ℕ → List (List ℚ)) :
    ℕ → ℕ → Option ℚ → Option (List ℚ) → ℕ → Option (List ℚ)
  | 0, _, _, best_individual, _ => best_individual
  | rem + 1, g, best_fitness, best_individual, no_improvement =>
      let population := pops g
      let fitness_scores := population.map (fitness_function T time_constraint initial_state target_state)
      let min_idx := argmin_fitness fitness_scores
      let min_fitness := fitness_scores.getD min_idx none
      if fitness_lt min_fitness best_fitness then
        ga_loop T time_constraint initial_state target_state pops rem (g + 1)
          min_fitness (population.get? min_idx) 0
      else
        if no_improvement + 1 > 50 then best_individual
        else ga_loop T time_constraint initial_state target_state pops rem (g + 1)
          best_fitness best_individual (no_improvement + 1)

/-- `TrajectoryOptimizer._genetic_algorithm_optimization`: runs the
generation loop (hard cap `self.max_iterations = 1000`), decodes the best
individual if any, and otherwise falls back to
`_simple_two_impulse_transfer`. -/
def genetic_algorithm_optimization (T : Transcend) (pops : ℕ → List (List ℚ))
    (initial_state target_state : OrbitalState) (ps : PropulsionSystem)
    (max_impulses : ℕ) (time_constraint : Option ℚ) : OptimizedTrajectory :=
  match ga_loop T time_constraint initial_state target_state pops 1000 0 none none 0 with
  | some best_individual =>
      match individual_to_trajectory T best_individual initial_state target_state with
      | some trajectory => trajectory
      | none => simple_two_impulse_transfer T initial_state target_state ps
  | none => simple_two_impulse_transfer T initial_state target_state ps

/-- `TrajectoryOptimizer.optimize_multi_impulse_trajectory`: delegates to
the genetic algorithm. -/
def optimize_multi_impulse_trajectory (T : Transcend) (pops : ℕ → List (List ℚ))
    (initial_state target_state : OrbitalState) (ps : PropulsionSystem)
    (max_impulses : ℕ := 3) (time_constraint : Option ℚ := none) : OptimizedTrajectory :=
  genetic_algorithm_optimization T pops initial_state target_state ps max_impulses time_constraint

/-- The per-segment loop of `TrajectoryOptimizer._gradient_optimization`:
`k` segments remain, `i` segments are already built.  Returns the
segments, the accumulated total delta-v and fuel, and the final state. -/
def gradient_segments (T : Transcend) (ps : PropulsionSystem) (time_step : ℚ) :
    ℕ → ℕ → OrbitalState → List TrajectorySegment × ℚ × ℚ × OrbitalState
  | 0, _, current_state => ([], 0, 0, current_state)
  | k + 1, i, current_state =>
      let target_segment_state := propagate_orbit T current_state time_step
      let delta_v := vnorm T (target_segment_state.velocity.sub current_state.velocity) / 1000
      let cons := calculate_fuel_consumption T ps delta_v 1000
      let seg : TrajectorySegment :=
        ⟨(i : ℚ) * time_step, ((i : ℚ) + 1) * time_step, current_state,
         target_segment_state, delta_v, cons.fuel_mass, some ps⟩
      let tail := gradient_segments T ps time_step k (i + 1) target_segment_state
      (seg :: tail.1, delta_v + tail.2.1, cons.fuel_mass + tail.2.2.1, tail.2.2.2)

/-- `TrajectoryOptimizer._gradient_optimization` (`num_segments = 20`). -/
def gradient_optimization (T : Transcend) (initial_state target_state : OrbitalState)
    (ps : PropulsionSystem) (max_time : ℚ) : OptimizedTrajectory :=
  let num_segments : ℕ := 20
  let time_step := max_time / 20
  let res := gradient_segments T ps time_step num_segments 0 initial_state
  ⟨res.1, res.2.1, res.2.2.1, max_time, "Gradient Optimization", ⟨num_segments, true⟩⟩

/-- `TrajectoryOptimizer.optimize_continuous_thrust_trajectory`: delegates
to the gradient optimization. -/
def optimize_continuous_thrust_trajectory (T : Transcend)
    (initial_state target_state : OrbitalState) (ps : PropulsionSystem)
    (max_time : ℚ) : OptimizedTrajectory :=
  gradient_optimization T initial_state target_state ps max_time

/-- `TrajectoryOptimizer.optimize_hohmann_transfer`. -/
def optimize_hohmann_transfer (T : Transcend) (initial_state : OrbitalState)
    (target_altitude : ℚ) (ps : PropulsionSystem) : OptimizedTrajectory :=
  let initial_elements := state_to_elements T initial_state
  let target_radius := earth_radius + target_altitude
  let hohmann_params := calculate_hohmann_transfer T initial_elements.semi_major_axis target_radius
  let initial_mass : ℚ := 1000
  let consumption1 := calculate_fuel_consumption T ps hohmann_params.delta_v1 initial_mass
  let mass_after_burn1 := initial_mass - consumption1.fuel_mass
  let consumption2 := calculate_fuel_consumption T ps hohmann_params.delta_v2 mass_after_burn1
  let segment1 : TrajectorySegment :=
    ⟨0, 0, initial_state, apply_delta_v T initial_state hohmann_params.delta_v1,
     hohmann_params.delta_v1, consumption1.fuel_mass, some ps⟩
  let coast_state := propagate_orbit T segment1.end_state hohmann_params.transfer_time
  let segment2 : TrajectorySegment :=
    ⟨hohmann_params.transfer_time, hohmann_params.transfer_time, coast_state,
     apply_delta_v T coast_state hohmann_params.delta_v2,
     hohmann_params.delta_v2, consumption2.fuel_mass, some ps⟩
  ⟨[segment1, segment2], hohmann_params.total_delta_v,
   consumption1.fuel_mass + consumption2.fuel_mass,
   hohmann_params.transfer_time, "Hohmann Transfer", ⟨1, true⟩⟩

/-- `MissionRequirements` dataclass (the `__post_init__` priority validation
is not needed by the claims; priorities are carried verbatim). -/
structure MissionRequirements where
  initial_altitude : ℚ
  target_altitude : ℚ
  max_mission_time : ℚ
  max_fuel_mass : ℚ
  max_total_mass : ℚ
  max_power : ℚ
  optimization_priority : String := "fuel"
deriving DecidableEq

/-- `FuelOptimizer._create_default_initial_elements`: circular orbit at the
given altitude, 45 degrees inclination (passed already converted by
`np.radians(45.0)`). -/
def create_default_initial_elements (T : Transcend) (altitude : ℚ) : OrbitalElements :=
  mkOrbitalElements T (6371 + altitude) 0 (radians T 45) 0 0 0

/-- `FuelOptimizer._create_target_elements`: identical construction. -/
def create_target_elements (T : Transcend) (altitude : ℚ) : OrbitalElements :=
  mkOrbitalElements T (6371 + altitude) 0 (radians T 45) 0 0 0

/-- The `constellation_config` dictionary: optional keys with the defaults
used at the `.get` call sites. -/
structure ConstellationConfig where
  num_satellites : Option ℕ := none
  deployment_altitude : Option ℚ := none
  spacing_angle : Option ℚ := none
deriving DecidableEq

/-- `FuelOptimizer.optimize_constellation_deployment`, parametric in the
mission optimizer `f` standing for `self.optimize_mission` exactly as it
is invoked there: `self.optimize_mission(mission_requirements,
initial_elements)`.  The per-satellite `target_elements` — including the
ascending-node offset `np.radians(i * spacing_angle)` — are computed but
never passed to the call. -/
def optimize_constellation_deployment {α : Type} (T : Transcend)
    (f : MissionRequirements → OrbitalElements → α)
    (config : ConstellationConfig) (reqs : MissionRequirements) : List α :=
  let num_satellites := config.num_satellites.getD 1
  let deployment_altitude := config.deployment_altitude.getD 500
  let spacing_angle := config.spacing_angle.getD (360 / (num_satellites : ℚ))
  (List.range num_satellites).map (fun i =>
    let initial_elements := create_default_initial_elements T reqs.initial_altitude
    let target_elements := create_target_elements T deployment_altitude
    let _target_elements :=
      { target_elements with
        longitude_of_ascending_node :=
          target_elements.longitude_of_ascending_node + radians T ((i : ℚ) * spacing_angle) }
    f reqs initial_elements)

/-- `OptimizationStatus` enum of the real-time optimizer. -/
inductive OptimizationStatus where
  | idle
  | running
  | converged
  | failed
  | constrained
  | emergency
deriving DecidableEq

/-- Shared state of a real-time session relevant to the status machine:
`RealTimeMetrics.optimization_status`, the `paused` and `running` flags,
whether the optimization loop's guard
`if not self.paused and self._should_optimize()` has evaluated true but
`_run_optimization` has not yet executed its `RUNNING` assignment
(`guard_passed`), and whether an optimization attempt is in flight
(between the `RUNNING` assignment at the top of `_run_optimization` and
the final `CONVERGED`/`FAILED` assignment).  The guard check, the
`RUNNING` assignment and the completing assignment are three separate
unsynchronized operations in the source, so they are three separate
events here; control calls from other threads can land between any of
them. -/
structure RTState where
  status : OptimizationStatus
  paused : Bool
  running : Bool
  guard_passed : Bool
  in_flight : Bool
deriving DecidableEq

/-- Session state right after `start_real_time_optimization`: metrics are
initialized with `OptimizationStatus.IDLE`, `running = True`,
`paused = False`. -/
def rt_initial : RTState := ⟨OptimizationStatus.idle, false, true, false, false⟩

/-- Atomic events of the interleaving model of a real-time session: the
optimization loop's pause-and-should-optimize guard evaluating true
(`check_pass`), the `RUNNING` assignment at the top of
`_run_optimization` (`set_running`), the completion of the attempt
(`CONVERGED` on success, `FAILED` on exception), and the externally
callable `pause_optimization`, `resume_optimization`,
`stop_real_time_optimization`. -/
inductive RTEvent where
  | check_pass
  | set_running
  | finish_ok
  | finish_fail
  | pause
  | resume
  | stop
deriving DecidableEq

/-- One step of the interleaving model.  `check_pass` fires only when the
loop is running, not paused, with no guard already passed and no attempt
in flight (the loop body is sequential, so at most one attempt is ever
pending); `set_running` fires once a guard has passed — the source does
not re-read `paused` there, so a pause landing between the check and the
assignment does not stop the attempt; a finish event fires only for an
in-flight attempt.  `stop_real_time_optimization` sets `running = False`
and `paused = False`, performs no status assignment, and cancels neither
a passed guard nor an in-flight attempt (`running` is not re-checked
between the guard and the call). -/
def rt_step (s : RTState) : RTEvent → RTState
  | RTEvent.check_pass =>
      if s.running && !s.paused && !s.guard_passed && !s.in_flight then
        { s with guard_passed := true }
      else s
  | RTEvent.set_running =>
      if s.guard_passed then
        { s with status := OptimizationStatus.running, guard_passed := false,
                 in_flight := true }
      else s
  | RTEvent.finish_ok =>
      if s.in_flight then
        { s with status := OptimizationStatus.converged, in_flight := false }
      else s
  | RTEvent.finish_fail =>
      if s.in_flight then
        { s with status := OptimizationStatus.failed, in_flight := false }
      else s
  | RTEvent.pause => { s with paused := true }
  | RTEvent.resume => { s with paused := false }
  | RTEvent.stop => { s with running := false, paused := false }

/-- The transition alphabet asserted by the claim: `Idle → Running`,
`Running → {Converged, Failed, Constrained, Emergency}`, any state to
`Idle` on stop, and any state back to `Running` on a new optimization
attempt. -/
def rt_transition_allowed (before after : OptimizationStatus) (e : RTEvent) : Bool :=
  (match before, after with
   | OptimizationStatus.idle, OptimizationStatus.running => true
   | OptimizationStatus.running, OptimizationStatus.converged => true
   | OptimizationStatus.running, OptimizationStatus.failed => true
   | OptimizationStatus.running, OptimizationStatus.constrained => true
   | OptimizationStatus.running, OptimizationStatus.emergency => true
   | _, _ => false)
  || (decide (e = RTEvent.stop) && decide (after = OptimizationStatus.idle))
  || (decide (e = RTEvent.set_running) && decide (after = OptimizationStatus.running))

/-- The property asserted by the claim, checked along a trace from state
`s`: whenever an event changes the status, the change is in the allowed
alphabet AND the session is not paused at that moment. -/
def rt_claim_ok_from (s : RTState) : List RTEvent → Bool
  | [] => true
  | e :: rest =>
      let after := rt_step s e
      (if after.status = s.status then true
       else rt_transition_allowed s.status after.status e && !s.paused)
      && rt_claim_ok_from after rest

/-- The claim property evaluated on a whole session trace. -/
def rt_claim_ok (trace : List RTEvent) : Bool := rt_claim_ok_from rt_initial trace

/-- The amended property: every status change is in the allowed alphabet; a
status change happening while `paused` is true can only be a step of an
attempt that was already sanctioned — the `RUNNING` assignment of an
attempt whose guard check has already passed, or the completion of an
attempt already in flight — and the sanctioning guard check itself
(`guard_passed` becoming true) only ever happens while the session is
not paused. -/
def rt_amended_ok_from (s : RTState) : List RTEvent → Bool
  | [] => true
  | e :: rest =>
      let after := rt_step s e
      ((if after.status = s.status then true
        else
          rt_transition_allowed s.status after.status e &&
          (!s.paused || decide (e = RTEvent.set_running) || decide (e = RTEvent.finish_ok)
            || decide (e = RTEvent.finish_fail)))
       && (!(after.guard_passed && !s.guard_passed) || !s.paused))
      && rt_amended_ok_from after rest

/-- The amended property evaluated on a whole session trace. -/
def rt_amended_ok (trace : List RTEvent) : Bool := rt_amended_ok_from rt_initial trace

/-- Invariant of the interleaving model: an in-flight attempt has already
set the status to `RUNNING`. -/
def rt_inv (s : RTState) : Prop := s.in_flight = true → s.status = OptimizationStatus.running

/-- Running-mass soundness of a burn list, as the spec states it: each
burn's fuel mass does not exceed the mass available at that step, and the
running mass never becomes negative. -/
def burns_ok : List FuelConsumption → ℚ → Prop
  | [], _ => True
  | cons :: rest, m =>
      cons.fuel_mass ≤ m ∧ 0 ≤ m - cons.fuel_mass ∧ burns_ok rest (m - cons.fuel_mass)

/-- Time span covered by a trajectory's segment sequence: end time of the
last segment minus start time of the first. -/
def sequence_span (t : OptimizedTrajectory) : ℚ :=
  ((t.segments.getLast?.map (·.end_time)).getD 0)
    - ((t.segments.head?.map (·.start_time)).getD 0)

/-- A constraints dictionary whose only key is `max_power = -1`: no catalog
system can have power consumption at most `-1`. -/
def cNegPower : Constraints := { max_power := some (-1) }

/-- A constraints dictionary whose only key is `max_fuel_mass = -1`: every
system fails it, so selection must report failure. -/
def cNegFuel : Constraints := { max_fuel_mass := some (-1) }

/-- A single burn consumes at most the available mass and leaves a
non-negative remainder, for any non-negative starting mass, because
`exp` is non-negative. -/
theorem fuel_mass_le_mass (T : Transcend) (ps : PropulsionSystem) (dv m : ℚ)
    (hexp : ∀ t, 0 ≤ T.exp t) (hm : 0 ≤ m) :
    (calculate_fuel_consumption T ps dv m).fuel_mass ≤ m ∧
    0 ≤ m - (calculate_fuel_consumption T ps dv m).fuel_mass := by
  rcases ps with ⟨nm, pt, th, isp, pw, eff, dm, fm⟩
  cases pt <;>
    simp only [calculate_fuel_consumption] <;>
    constructor <;>
    nlinarith [hexp (-(dv * 1000) / (isp * g0)),
      hexp (-(dv * 1000) / (isp * min 1 (pw * eff / (th * isp * g0 / 2)) * g0)),
      mul_nonneg hm (hexp (-(dv * 1000) / (isp * g0))),
      mul_nonneg hm (hexp (-(dv * 1000) / (isp * min 1 (pw * eff / (th * isp * g0 / 2)) * g0)))]

/-- Mass bookkeeping of `calculate_multi_burn_consumption`: the final mass
is the initial mass minus the total fuel, and the burn list is sound for
the initial mass. -/
theorem multi_burn_aux_props (T : Transcend) (ps : PropulsionSystem)
    (hexp : ∀ t, 0 ≤ T.exp t) :
    ∀ (dvs : List ℚ) (m : ℚ), 0 ≤ m →
      (multi_burn_aux T ps dvs m).2
          = m - (((multi_burn_aux T ps dvs m).1.map (·.fuel_mass)).sum)
        ∧ burns_ok (multi_burn_aux T ps dvs m).1 m := by
  intro dvs
  induction dvs with
  | nil => intro m hm; simp [multi_burn_aux, burns_ok]
  | cons dv rest ih =>
      intro m hm
      have hstep := fuel_mass_le_mass T ps dv m hexp hm
      have hnext := ih (m - (calculate_fuel_consumption T ps dv m).fuel_mass) hstep.2
      refine ⟨?_, hstep.1, hstep.2, hnext.2⟩
      simp only [multi_burn_aux, List.map_cons, List.sum_cons]
      rw [hnext.1]
      ring

/-- Mass bookkeeping of the phase loop of
`calculate_total_mission_consumption`. -/
theorem mission_loop_props (T : Transcend) (ps : PropulsionSystem)
    (hexp : ∀ t, 0 ≤ T.exp t) :
    ∀ (phases : List MissionPhase) (i : ℕ) (m : ℚ), 0 ≤ m →
      (mission_loop T ps phases i m).2.2.2.2
          = m - (((mission_loop T ps phases i m).1.map (·.fuel_mass)).sum)
        ∧ (mission_loop T ps phases i m).2.1
          = ((mission_loop T ps phases i m).1.map (·.fuel_mass)).sum
        ∧ ∀ pd ∈ (mission_loop T ps phases i m).1,
            pd.fuel_mass ≤ pd.mass_before ∧ 0 ≤ pd.mass_before ∧ 0 ≤ pd.mass_after
              ∧ pd.mass_after = pd.mass_before - pd.fuel_mass := by
  intro phases
  induction phases with
  | nil => intro i m hm; simp [mission_loop]
  | cons phase rest ih =>
      intro i m hm
      have hstep := fuel_mass_le_mass T ps phase.delta_v m hexp hm
      have hnext := ih (i + 1) (m - (calculate_fuel_consumption T ps phase.delta_v m).fuel_mass) hstep.2
      refine ⟨?_, ?_, ?_⟩
      · simp only [mission_loop, List.map_cons, List.sum_cons]
        rw [hnext.1]
        ring
      · simp only [mission_loop, List.map_cons, List.sum_cons]
        rw [hnext.2.1]
      · intro pd hpd
        simp only [mission_loop, List.mem_cons] at hpd
        rcases hpd with hpd | hpd
        · subst hpd
          exact ⟨hstep.1, hm, hstep.2, rfl⟩
        · exact hnext.2.2 pd hpd

/-- C5: for every propulsion system, every finite sequence of non-negative
delta-v values and every positive initial mass, the multi-burn
computations conserve mass: `calculate_multi_burn_consumption` leaves a
final mass equal to the initial mass minus the summed per-burn fuel
masses, no burn consumes more than the mass available at its step, and
the running mass never becomes negative; the same holds for the per-phase
records of `calculate_total_mission_consumption`. -/
theorem claim_C5_mass_conservation (T : Transcend) (ps : PropulsionSystem)
    (dvs : List ℚ) (m0 : ℚ) (profile : List MissionPhase)
    (hexp : ∀ t, 0 ≤ T.exp t) (hm : 0 < m0)
    (hdv : ∀ dv ∈ dvs, 0 ≤ dv) (hpdv : ∀ ph ∈ profile, 0 ≤ ph.delta_v) :
    ((multi_burn_aux T ps dvs m0).2
        = m0 - ((calculate_multi_burn_consumption T ps dvs m0).map (·.fuel_mass)).sum
      ∧ burns_ok (calculate_multi_burn_consumption T ps dvs m0) m0)
    ∧ (∀ p0 rest r, profile = p0 :: rest →
        p0.initial_mass.getD 1000 = m0 →
        calculate_total_mission_consumption T ps profile = some r →
        r.final_mass = m0 - (r.phase_consumptions.map (·.fuel_mass)).sum
          ∧ r.total_fuel_mass = (r.phase_consumptions.map (·.fuel_mass)).sum
          ∧ ∀ pd ∈ r.phase_consumptions,
              pd.fuel_mass ≤ pd.mass_before ∧ 0 ≤ pd.mass_before ∧ 0 ≤ pd.mass_after
                ∧ pd.mass_after = pd.mass_before - pd.fuel_mass) := by
  constructor
  · exact multi_burn_aux_props T ps hexp dvs m0 hm.le
  · intro p0 rest r hprof hm0 hr
    subst hprof
    subst hm0
    have hloop := mission_loop_props T ps hexp (p0 :: rest) 0 (p0.initial_mass.getD 1000) hm.le
    simp only [calculate_total_mission_consumption, Option.some.injEq] at hr
    subst hr
    exact ⟨hloop.1, hloop.2.1, hloop.2.2⟩

/-- Witness for C5 at a concrete input: one 1 km/s burn of the
monopropellant system starting from 1000 kg. -/
theorem claim_C5_witness :
    (multi_burn_aux unitT monopropellant [1] 1000).2
        = 1000 - ((calculate_multi_burn_consumption unitT monopropellant [1] 1000).map (·.fuel_mass)).sum
      ∧ burns_ok (calculate_multi_burn_consumption unitT monopropellant [1] 1000) 1000 :=
  (claim_C5_mass_conservation unitT monopropellant [1] 1000 [⟨1, none, some 1000⟩]
    (fun _ => by norm_num [unitT]) (by norm_num)
    (fun dv hdv => by simp at hdv; simp [hdv])
    (fun ph hph => by simp at hph; simp [hph])).1

/-- C6: for every pair of positive orbital radii, swapping the arguments of
`calculate_hohmann_transfer` leaves `total_delta_v` unchanged: the
transfer ellipse is the same and each leg's delta-v is an absolute
difference of the same two speeds. -/
theorem claim_C6_hohmann_symmetry (T : Transcend) (r1 r2 : ℚ)
    (h1 : 0 < r1) (h2 : 0 < r2) :
    (calculate_hohmann_transfer T r1 r2).total_delta_v
      = (calculate_hohmann_transfer T r2 r1).total_delta_v := by
  simp only [calculate_hohmann_transfer]
  rw [add_comm r2 r1]
  rw [abs_sub_comm (T.sqrt (mu_earth * (2 / r1 - 1 / ((r1 + r2) / 2))))
    (T.sqrt (mu_earth / r1))]
  rw [abs_sub_comm (T.sqrt (mu_earth / r2))
    (T.sqrt (mu_earth * (2 / r2 - 1 / ((r1 + r2) / 2))))]
  exact add_comm _ _

/-- Witness for C6 at the concrete radii 6771 and 7171 km. -/
theorem claim_C6_witness :
    (calculate_hohmann_transfer unitT 6771 7171).total_delta_v
      = (calculate_hohmann_transfer unitT 7171 6771).total_delta_v :=
  claim_C6_hohmann_symmetry unitT 6771 7171 (by norm_num) (by norm_num)

/-- C9 counterexample: the element set built with inclination `-1` radian
(a perfectly ordinary retrograde-leaning input) is stored unchanged by
`__post_init__` — `|-1|` does not exceed `2*pi`, so no conversion fires —
and `-1` does not lie in the half-open interval `[0, 2*pi)`.  The stored
angles are therefore not normalized into `[0, 2*pi)`. -/
theorem claim_C9_counterexample :
    (mkOrbitalElements unitT 7000 0 (-1) 0 0 0).inclination = -1
      ∧ ¬ (0 ≤ (mkOrbitalElements unitT 7000 0 (-1) 0 0 0).inclination
            ∧ (mkOrbitalElements unitT 7000 0 (-1) 0 0 0).inclination < 2 * unitT.pi) := by
  have hpi : unitT.pi = 1 := rfl
  have h : mkOrbitalElements unitT 7000 0 (-1) 0 0 0 = ⟨7000, 0, -1, 0, 0, 0⟩ := by
    simp only [mkOrbitalElements, orbital_elements_post_init, hpi]
    norm_num
  refine ⟨by rw [h], ?_⟩
  rw [h, hpi]
  intro hcon
  norm_num at hcon

/-- C9 amended: `__post_init__` multiplies by `pi/180` exactly those angle
fields whose absolute value exceeds `2*pi` and stores every other angle
unchanged; consequently any constructed element set whose four angles
already lie in `[0, 2*pi)` is stored verbatim and its angles remain in
`[0, 2*pi)` — but nothing reduces out-of-range angles into `[0, 2*pi)`. -/
theorem claim_C9_amended_angles (T : Transcend) (a e i w om nu : ℚ)
    (hi : 0 ≤ i ∧ i < 2 * T.pi) (hw : 0 ≤ w ∧ w < 2 * T.pi)
    (hom : 0 ≤ om ∧ om < 2 * T.pi) (hnu : 0 ≤ nu ∧ nu < 2 * T.pi) :
    mkOrbitalElements T a e i w om nu = ⟨a, e, i, w, om, nu⟩
      ∧ (0 ≤ (mkOrbitalElements T a e i w om nu).inclination
          ∧ (mkOrbitalElements T a e i w om nu).inclination < 2 * T.pi)
      ∧ (0 ≤ (mkOrbitalElements T a e i w om nu).argument_of_periapsis
          ∧ (mkOrbitalElements T a e i w om nu).argument_of_periapsis < 2 * T.pi)
      ∧ (0 ≤ (mkOrbitalElements T a e i w om nu).longitude_of_ascending_node
          ∧ (mkOrbitalElements T a e i w om nu).longitude_of_ascending_node < 2 * T.pi)
      ∧ (0 ≤ (mkOrbitalElements T a e i w om nu).true_anomaly
          ∧ (mkOrbitalElements T a e i w om nu).true_anomaly < 2 * T.pi) := by
  have heq : mkOrbitalElements T a e i w om nu = ⟨a, e, i, w, om, nu⟩ := by
    simp only [mkOrbitalElements, orbital_elements_post_init]
    congr 1 <;>
      rw [if_neg] <;>
      simp only [not_lt, gt_iff_lt] <;>
      first
        | (rw [abs_of_nonneg hi.1]; exact hi.2.le)
        | (rw [abs_of_nonneg hw.1]; exact hw.2.le)
        | (rw [abs_of_nonneg hom.1]; exact hom.2.le)
        | (rw [abs_of_nonneg hnu.1]; exact hnu.2.le)
  rw [heq]
  exact ⟨rfl, hi, hw, hom, hnu⟩

/-- Witness for C9's amended statement at concrete in-range angles. -/
theorem claim_C9_witness :
    mkOrbitalElements unitT 7000 0 1 0 0 (1/2)
      = ⟨7000, 0, 1, 0, 0, 1/2⟩ :=
  (claim_C9_amended_angles unitT 7000 0 1 0 0 (1/2)
    (by norm_num [unitT]) (by norm_num [unitT]) (by norm_num [unitT])
    (by norm_num [unitT])).1

/-- Zero delta-v yields zero fuel mass and zero burn time for any system,
because `exp 0 = 1` annihilates the Tsiolkovsky factor on both the
chemical and the electric branch, and the remaining branch returns
zeros outright. -/
theorem fuel_consumption_zero_dv (T : Transcend) (h0 : T.exp 0 = 1)
    (ps : PropulsionSystem) (m : ℚ) :
    (calculate_fuel_consumption T ps 0 m).fuel_mass = 0
      ∧ (calculate_fuel_consumption T ps 0 m).burn_time = 0 := by
  rcases ps with ⟨nm, pt, th, isp, pw, eff, dm, fm⟩
  cases pt <;> simp [calculate_fuel_consumption, h0]

/-- C10: for every propulsion system in the seeded catalog and every
positive satellite mass, `calculate_fuel_consumption` at `delta_v = 0`
returns zero fuel mass and zero burn time. -/
theorem claim_C10_zero_delta_v (T : Transcend) (h0 : T.exp 0 = 1)
    (ps : PropulsionSystem) (hps : ps ∈ propulsion_systems)
    (m : ℚ) (hm : 0 < m) :
    (calculate_fuel_consumption T ps 0 m).fuel_mass = 0
      ∧ (calculate_fuel_consumption T ps 0 m).burn_time = 0 :=
  fuel_consumption_zero_dv T h0 ps m

/-- Witness for C10: the ion thruster at 850 kg. -/
theorem claim_C10_witness :
    (calculate_fuel_consumption unitT ion_thruster 0 850).fuel_mass = 0
      ∧ (calculate_fuel_consumption unitT ion_thruster 0 850).burn_time = 0 :=
  claim_C10_zero_delta_v unitT rfl ion_thruster (by simp [propulsion_systems])
    850 (by norm_num)

/-- Unpacking of a successful `_check_constraints`: each present constraint
key bounds the corresponding quantity — with the power bound applying
only to systems whose power consumption is strictly positive. -/
theorem check_constraints_spec (sys : PropulsionSystem) (cons : FuelConsumption)
    (c : Constraints) (h : check_constraints sys cons c = true) :
    (∀ limit, c.max_total_mass = some limit →
        sys.dry_mass + sys.fuel_mass + cons.fuel_mass ≤ limit)
      ∧ (∀ limit, c.max_power = some limit → 0 < sys.power_consumption →
          sys.power_consumption ≤ limit)
      ∧ (∀ limit, c.max_burn_time = some limit → cons.burn_time ≤ limit)
      ∧ (∀ limit, c.max_fuel_mass = some limit → cons.fuel_mass ≤ limit) := by
  simp only [check_constraints, Bool.and_eq_true] at h
  obtain ⟨⟨⟨h1, h2⟩, h3⟩, h4⟩ := h
  refine ⟨?_, ?_, ?_, ?_⟩
  · intro limit hl
    rw [hl] at h1
    exact of_decide_eq_true h1
  · intro limit hl hpos
    rw [hl] at h2
    have h2a : (if sys.power_consumption > 0 then
        decide (sys.power_consumption ≤ limit) else true) = true := h2
    rw [if_pos hpos] at h2a
    exact of_decide_eq_true h2a
  · intro limit hl
    rw [hl] at h3
    exact of_decide_eq_true h3
  · intro limit hl
    rw [hl] at h4
    exact of_decide_eq_true h4

/-- Invariant of the catalog scan: any best candidate carries its own
computed consumption and passes `_check_constraints`. -/
theorem optimal_propulsion_foldl_spec (T : Transcend) (dv m : ℚ) (c : Constraints) :
    ∀ (l : List PropulsionSystem) (acc : Option (PropulsionSystem × FuelConsumption × ℚ)),
      (∀ s c2 sc, acc = some (s, c2, sc) →
        c2 = calculate_fuel_consumption T s dv m ∧ check_constraints s c2 c = true) →
      ∀ s c2 sc, l.foldl (optimal_propulsion_step T dv m c) acc = some (s, c2, sc) →
        c2 = calculate_fuel_consumption T s dv m ∧ check_constraints s c2 c = true := by
  intro l
  induction l with
  | nil => intro acc hacc; exact hacc
  | cons x xs ih =>
      intro acc hacc
      refine ih (optimal_propulsion_step T dv m c acc x) ?_
      intro s c2 sc hstep
      by_cases hcheck :
        check_constraints x (calculate_fuel_consumption T x dv m) c = true
      · simp only [optimal_propulsion_step, if_pos hcheck] at hstep
        cases hacc0 : acc with
        | none =>
            rw [hacc0] at hstep
            simp only [Option.some.injEq, Prod.mk.injEq] at hstep
            obtain ⟨hs, hc2, _⟩ := hstep
            subst hs; subst hc2
            exact ⟨rfl, hcheck⟩
        | some b =>
            obtain ⟨bs, bc, bscore⟩ := b
            rw [hacc0] at hstep
            simp only at hstep
            by_cases hlt :
              calculate_system_score x (calculate_fuel_consumption T x dv m) c < bscore
            · rw [if_pos hlt] at hstep
              simp only [Option.some.injEq, Prod.mk.injEq] at hstep
              obtain ⟨hs, hc2, _⟩ := hstep
              subst hs; subst hc2
              exact ⟨rfl, hcheck⟩
            · rw [if_neg hlt] at hstep
              simp only [Option.some.injEq, Prod.mk.injEq] at hstep
              obtain ⟨hs, hc2, _⟩ := hstep
              subst hs; subst hc2
              exact hacc bs bc bscore (by rw [hacc0])
      · simp only [optimal_propulsion_step, if_neg hcheck] at hstep
        exact hacc s c2 sc hstep

/-- If every catalog entry fails `_check_constraints`, the scan keeps no
candidate. -/
theorem optimal_propulsion_foldl_none (T : Transcend) (dv m : ℚ) (c : Constraints) :
    ∀ (l : List PropulsionSystem),
      (∀ sys ∈ l,
        check_constraints sys (calculate_fuel_consumption T sys dv m) c = false) →
      l.foldl (optimal_propulsion_step T dv m c) none = none := by
  intro l
  induction l with
  | nil => intro _; rfl
  | cons x xs ih =>
      intro h
      have hx := h x (List.mem_cons_self x xs)
      simp only [List.foldl_cons, optimal_propulsion_step, hx, Bool.false_eq_true,
        if_false]
      exact ih (fun sys hs => h sys (List.mem_cons_of_mem x hs))

/-- C1 amended: whenever `calculate_optimal_propulsion` returns a system, the
pair carries the consumption computed for that system and satisfies every
present constraint among `max_total_mass`, `max_burn_time` and
`max_fuel_mass`; the `max_power` bound is guaranteed only for systems
whose power consumption is strictly positive (zero-power systems bypass
the check in `_check_constraints`).  If every catalog entry fails
`_check_constraints`, the call raises instead of returning. -/
theorem claim_C1_amended_selection (T : Transcend) (systems : List PropulsionSystem)
    (dv m : ℚ) (c : Constraints) :
    (∀ sys cons, calculate_optimal_propulsion T systems dv m c = some (sys, cons) →
        cons = calculate_fuel_consumption T sys dv m
        ∧ (∀ limit, c.max_total_mass = some limit →
            sys.dry_mass + sys.fuel_mass + cons.fuel_mass ≤ limit)
        ∧ (∀ limit, c.max_power = some limit → 0 < sys.power_consumption →
            sys.power_consumption ≤ limit)
        ∧ (∀ limit, c.max_burn_time = some limit → cons.burn_time ≤ limit)
        ∧ (∀ limit, c.max_fuel_mass = some limit → cons.fuel_mass ≤ limit))
    ∧ ((∀ sys ∈ systems,
          check_constraints sys (calculate_fuel_consumption T sys dv m) c = false) →
        calculate_optimal_propulsion T systems dv m c = none) := by
  constructor
  · intro sys cons hres
    unfold calculate_optimal_propulsion at hres
    cases hb : systems.foldl (optimal_propulsion_step T dv m c) none with
    | none => rw [hb] at hres; exact Option.noConfusion hres
    | some b =>
        rw [hb] at hres
        obtain ⟨bs, bc, bscore⟩ := b
        simp only [Option.map_some', Option.some.injEq, Prod.mk.injEq] at hres
        obtain ⟨hs, hc⟩ := hres
        rw [← hs, ← hc]
        have hspec := optimal_propulsion_foldl_spec T dv m c systems none
          (fun s c2 sc h => Option.noConfusion h) bs bc bscore hb
        have hcc := check_constraints_spec bs bc c hspec.2
        exact ⟨hspec.1, hcc.1, hcc.2.1, hcc.2.2.1, hcc.2.2.2⟩
  · intro hall
    unfold calculate_optimal_propulsion
    rw [optimal_propulsion_foldl_none T dv m c systems hall]
    rfl

/-- Facts about `unitT` used while evaluating the embedding. -/
theorem unitT_exp (x : ℚ) : unitT.exp x = 1 := rfl

/-- Evaluation of the catalog scan at `delta_v = 0`, 100 kg, with the
`max_power = -1` constraint: the zero-power monopropellant bypasses the
power check and is selected. -/
theorem eval_optimal_neg_power :
    calculate_optimal_propulsion unitT propulsion_systems 0 100 cNegPower
      = some (monopropellant, ⟨0, 0, 0, 0⟩) := by
  norm_num [calculate_optimal_propulsion, optimal_propulsion_step, propulsion_systems,
    check_constraints, calculate_system_score, calculate_fuel_consumption,
    monopropellant, bipropellant, ion_thruster, hall_thruster, cNegPower, g0,
    unitT_exp, min_def, List.foldl]

/-- C1 counterexample: with the constraint dictionary `{max_power: -1}` no
catalog system satisfies "power consumption ≤ limit", yet the call
returns the monopropellant (power consumption 0 > -1) instead of
failing, because `_check_constraints` skips the power bound for systems
with zero power consumption.  This refutes both halves of the claim as
stated. -/
theorem claim_C1_counterexample :
    calculate_optimal_propulsion unitT propulsion_systems 0 100 cNegPower
        = some (monopropellant, ⟨0, 0, 0, 0⟩)
      ∧ cNegPower.max_power = some (-1)
      ∧ ¬ (monopropellant.power_consumption ≤ (-1 : ℚ))
      ∧ (propulsion_systems.all
          fun s => !(decide (s.power_consumption ≤ (-1 : ℚ)))) = true := by
  refine ⟨eval_optimal_neg_power, rfl, ?_, ?_⟩
  · norm_num [monopropellant]
  · norm_num [propulsion_systems, monopropellant, bipropellant, ion_thruster,
      hall_thruster, List.all]

/-- Witness for C1's amended statement: at `delta_v = 0` and 100 kg the
selected pair carries the computed consumption, and with the
unsatisfiable `max_fuel_mass = -1` constraint the call fails. -/
theorem claim_C1_witness :
    (⟨0, 0, 0, 0⟩ : FuelConsumption) = calculate_fuel_consumption unitT monopropellant 0 100
      ∧ calculate_optimal_propulsion unitT propulsion_systems 0 100 cNegFuel = none :=
  ⟨((claim_C1_amended_selection unitT propulsion_systems 0 100 cNegPower).1
      monopropellant ⟨0, 0, 0, 0⟩ eval_optimal_neg_power).1,
   (claim_C1_amended_selection unitT propulsion_systems 0 100 cNegFuel).2
     (by
       intro sys hs
       fin_cases hs <;>
         norm_num [check_constraints, calculate_fuel_consumption, cNegFuel,
           monopropellant, bipropellant, ion_thruster, hall_thruster, g0,
           unitT_exp, min_def])⟩

/-- C3: the constellation loop calls `optimize_mission(mission_requirements,
initial_elements)` with the same two arguments on every iteration, so the
result list is `num_satellites` copies of the same one-satellite
optimization; the per-satellite `target_elements` with the ascending-node
offset `i * spacing_angle` are computed but discarded.  Moreover the
target actually used inside `optimize_mission` comes from
`_create_target_elements`, whose ascending node is always 0. -/
theorem claim_C3_constellation_offset_unused {α : Type} (T : Transcend)
    (f : MissionRequirements → OrbitalElements → α)
    (config : ConstellationConfig) (reqs : MissionRequirements) :
    optimize_constellation_deployment T f config reqs
        = (List.range (config.num_satellites.getD 1)).map
            (fun _ => f reqs (create_default_initial_elements T reqs.initial_altitude))
      ∧ ∀ altitude, (create_target_elements T altitude).longitude_of_ascending_node = 0 := by
  constructor
  · rfl
  · intro altitude
    simp only [create_target_elements, mkOrbitalElements, orbital_elements_post_init,
      radians]
    split <;> norm_num

/-- C7: `calculate_lambert_transfer` never returns a velocity pair: when the
requested time is strictly below the minimum-energy transfer time it
raises the typed `ValueError`, and otherwise it reaches the velocity
computation, whose first factor accesses the nonexistent numpy attribute
`np.cot` and raises `AttributeError`. -/
theorem claim_C7_lambert_never_returns (T : Transcend) (r1 r2 : Vec3) (time : ℚ)
    (prograde : Bool) :
    calculate_lambert_transfer T r1 r2 time prograde
      = Except.error
          (if time < lambert_min_time T r1 r2 then LambertOutcome.time_below_minimum
           else LambertOutcome.numpy_missing_cot) := by
  by_cases h : time < lambert_min_time T r1 r2 <;>
    simp [calculate_lambert_transfer, h]

/-- Single-step soundness of the amended status-machine property, under the
invariant that an in-flight attempt has status `RUNNING`. -/
theorem rt_amended_step (s : RTState) (e : RTEvent) (hinv : rt_inv s) :
    ((if (rt_step s e).status = s.status then true
      else rt_transition_allowed s.status (rt_step s e).status e &&
        (!s.paused || decide (e = RTEvent.set_running) || decide (e = RTEvent.finish_ok)
          || decide (e = RTEvent.finish_fail)))
     && (!((rt_step s e).guard_passed && !s.guard_passed) || !s.paused)) = true
    ∧ rt_inv (rt_step s e) := by
  rcases s with ⟨st, p, r, gp, fl⟩
  simp only [rt_inv] at hinv ⊢
  cases st <;> cases p <;> cases r <;> cases gp <;> cases fl <;> cases e <;>
    first
      | decide
      | (exact absurd (hinv rfl) (by decide))

/-- The amended property holds along every trace from any state satisfying
the in-flight invariant. -/
theorem rt_amended_ok_from_of_inv :
    ∀ (trace : List RTEvent) (s : RTState), rt_inv s →
      rt_amended_ok_from s trace = true := by
  intro trace
  induction trace with
  | nil => intro s _; rfl
  | cons e rest ih =>
      intro s hs
      have hstep := rt_amended_step s e hs
      simp only [rt_amended_ok_from, Bool.and_eq_true]
      have hstep1 := hstep.1
      rw [Bool.and_eq_true] at hstep1
      exact ⟨hstep1, ih _ hstep.2⟩

/-- C8 counterexample: in the session trace "the optimization loop's pause
check passes, `pause_optimization` is called from another thread before
`_run_optimization` executes its `RUNNING` assignment, the assignment
then lands, the attempt later completes", both the `Idle → Running`
transition and the `Running → Converged` transition happen while
`paused` is true — the source does not re-read `paused` after the check —
so the claim's "no status transition occurs while the session is paused"
fails on a reachable execution. -/
theorem claim_C8_counterexample :
    rt_claim_ok [RTEvent.check_pass, RTEvent.pause, RTEvent.set_running,
      RTEvent.finish_ok] = false := by
  decide

/-- C8 amended: along every session trace, status changes only through the
allowed alphabet (Idle to Running, Running to one of Converged, Failed,
Constrained, Emergency, back to Running at the start of a new attempt,
to Idle only on stop — `stop_real_time_optimization` itself performs no
status assignment); the pause flag is consulted, while unpaused, before
an attempt is sanctioned (`guard_passed` only ever becomes true with
`paused` false), but a status change while `paused` is true can still
occur as a step of an already-sanctioned attempt: the `RUNNING`
assignment of an attempt whose check passed before the pause, or the
`CONVERGED`/`FAILED` completion of an attempt already in flight. -/
theorem claim_C8_amended_transitions :
    ∀ trace : List RTEvent, rt_amended_ok trace = true :=
  fun trace => rt_amended_ok_from_of_inv trace rt_initial (fun h => nomatch h)

/-- Every genetic-algorithm individual decodes to `None`: with at least one
impulse, the body calls `calculate_fuel_consumption(None, ...)` on its
first iteration, raising `AttributeError`; with zero impulses, the final
`times[-1]` indexes an empty list, raising `IndexError`.  Both are caught
by the surrounding `except` and yield `None`. -/
theorem individual_to_trajectory_none (T : Transcend) (individual : List ℚ)
    (initial_state target_state : OrbitalState) :
    individual_to_trajectory T individual initial_state target_state = none := by
  unfold individual_to_trajectory
  cases hnum : individual.length / 2 with
  | zero =>
      simp [hnum, List.take_zero]
  | succ k =>
      simp [hnum, List.range_succ_eq_map, calculate_fuel_consumption_opt]

/-- Consequently every individual's fitness is `float('inf')`. -/
theorem fitness_function_none (T : Transcend) (time_constraint : Option ℚ)
    (initial_state target_state : OrbitalState) (individual : List ℚ) :
    fitness_function T time_constraint initial_state target_state individual = none := by
  simp [fitness_function, individual_to_trajectory_none]

/-- `List.getD` with default `none` over a list whose members are all `none`
returns `none` at every index. -/
theorem getD_none_of_all_none :
    ∀ (l : List (Option ℚ)) (i : ℕ), (∀ x ∈ l, x = none) → l.getD i none = none := by
  intro l
  induction l with
  | nil => intro i h; simp [List.getD]
  | cons x xs ih =>
      intro i h
      cases i with
      | zero =>
          have hx := h x (List.mem_cons_self x xs)
          simp [List.getD_cons_zero, hx]
      | succ j =>
          rw [List.getD_cons_succ]
          exact ih j (fun y hy => h y (List.mem_cons_of_mem x hy))

/-- Since all fitness values are infinite, the generation loop never
improves on its initial `None` best individual and finally returns
`None` (either by the 50-generation early stop or by exhausting the
generation budget). -/
theorem ga_loop_none (T : Transcend) (time_constraint : Option ℚ)
    (initial_state target_state : OrbitalState) (pops : ℕ → List (List ℚ)) :
    ∀ (rem g no_improvement : ℕ),
      ga_loop T time_constraint initial_state target_state pops rem g
        none none no_improvement = none := by
  intro rem
  induction rem with
  | zero => intro g n; rfl
  | succ k ih =>
      intro g n
      rw [ga_loop]
      have hall : ∀ x ∈ (pops g).map
          (fitness_function T time_constraint initial_state target_state), x = none := by
        intro x hx
        rcases List.mem_map.mp hx with ⟨ind, _, hmap⟩
        rw [← hmap]
        exact fitness_function_none T time_constraint initial_state target_state ind
      rw [getD_none_of_all_none _ _ hall]
      rw [show fitness_lt none none = false from rfl]
      simp only [Bool.false_eq_true, if_false]
      split
      · rfl
      · exact ih (g + 1) (n + 1)

/-- `optimize_multi_impulse_trajectory` always returns the simple
two-impulse fallback. -/
theorem multi_impulse_eq_fallback (T : Transcend) (pops : ℕ → List (List ℚ))
    (initial_state target_state : OrbitalState) (ps : PropulsionSystem)
    (max_impulses : ℕ) (time_constraint : Option ℚ) :
    optimize_multi_impulse_trajectory T pops initial_state target_state ps
        max_impulses time_constraint
      = simple_two_impulse_transfer T initial_state target_state ps := by
  unfold optimize_multi_impulse_trajectory genetic_algorithm_optimization
  rw [ga_loop_none]

/-- C2: for every pair of orbital states, every propulsion system, every
`max_impulses` and time constraint, and every (nonempty-population)
run of the genetic algorithm, `optimize_multi_impulse_trajectory`
returns the simple two-impulse fallback: every individual decodes to
`None` (the decoder passes `None` as the propulsion system), so no
individual is ever accepted and the fallback branch is always taken.
The result has method "Simple Two-Impulse", exactly one segment, and
delta-v equal to the norm of the velocity difference divided by 1000. -/
theorem claim_C2_multi_impulse_always_fallback (T : Transcend)
    (pops : ℕ → List (List ℚ)) (initial_state target_state : OrbitalState)
    (ps : PropulsionSystem) (max_impulses : ℕ) (time_constraint : Option ℚ)
    (hne : ∀ g, pops g ≠ []) :
    optimize_multi_impulse_trajectory T pops initial_state target_state ps
        max_impulses time_constraint
      = simple_two_impulse_transfer T initial_state target_state ps
    ∧ (∀ individual,
        individual_to_trajectory T individual initial_state target_state = none)
    ∧ (optimize_multi_impulse_trajectory T pops initial_state target_state ps
        max_impulses time_constraint).optimization_method = "Simple Two-Impulse"
    ∧ (optimize_multi_impulse_trajectory T pops initial_state target_state ps
        max_impulses time_constraint).segments.length = 1
    ∧ (optimize_multi_impulse_trajectory T pops initial_state target_state ps
        max_impulses time_constraint).total_delta_v
      = vnorm T (target_state.velocity.sub initial_state.velocity) / 1000 := by
  have heq := multi_impulse_eq_fallback T pops initial_state target_state ps
    max_impulses time_constraint
  refine ⟨heq, fun ind => individual_to_trajectory_none T ind initial_state target_state,
    ?_, ?_, ?_⟩ <;> rw [heq] <;> rfl

/-- Witness for C2 at concrete states and a concrete one-individual
population sequence. -/
theorem claim_C2_witness :
    optimize_multi_impulse_trajectory unitT (fun _ => [[1/2, 1/2]])
        ⟨⟨7000, 0, 0⟩, ⟨0, 15/2, 0⟩, 0⟩ ⟨⟨0, 7000, 0⟩, ⟨-(15/2), 0, 0⟩, 0⟩
        monopropellant 3 none
      = simple_two_impulse_transfer unitT ⟨⟨7000, 0, 0⟩, ⟨0, 15/2, 0⟩, 0⟩
          ⟨⟨0, 7000, 0⟩, ⟨-(15/2), 0, 0⟩, 0⟩ monopropellant :=
  (claim_C2_multi_impulse_always_fallback unitT (fun _ => [[1/2, 1/2]])
    ⟨⟨7000, 0, 0⟩, ⟨0, 15/2, 0⟩, 0⟩ ⟨⟨0, 7000, 0⟩, ⟨-(15/2), 0, 0⟩, 0⟩
    monopropellant 3 none (fun g => by simp)).1

/-- The accumulated delta-v of the continuous-thrust loop equals the sum of
its segments' delta-v values. -/
theorem gradient_segments_sum_dv (T : Transcend) (ps : PropulsionSystem) (ts : ℚ) :
    ∀ (k i : ℕ) (st : OrbitalState),
      (gradient_segments T ps ts k i st).2.1
        = (((gradient_segments T ps ts k i st).1.map (·.delta_v)).sum) := by
  intro k
  induction k with
  | zero => intro i st; simp [gradient_segments]
  | succ k ih =>
      intro i st
      simp only [gradient_segments, List.map_cons, List.sum_cons]
      rw [ih]

/-- The first segment of the continuous-thrust loop starts at `i * ts`. -/
theorem gradient_segments_head (T : Transcend) (ps : PropulsionSystem) (ts : ℚ)
    (k i : ℕ) (st : OrbitalState) (hk : 0 < k) :
    ((gradient_segments T ps ts k i st).1.head?.map (·.start_time))
      = some ((i : ℚ) * ts) := by
  cases k with
  | zero => exact absurd hk (by norm_num)
  | succ k2 => simp [gradient_segments]

/-- The continuous-thrust loop emits at least one segment when at least one
remains. -/
theorem gradient_segments_ne_nil (T : Transcend) (ps : PropulsionSystem) (ts : ℚ)
    (k i : ℕ) (st : OrbitalState) (hk : 0 < k) :
    (gradient_segments T ps ts k i st).1 ≠ [] := by
  cases k with
  | zero => exact absurd hk (by norm_num)
  | succ k2 => simp [gradient_segments]

/-- Peeling the first segment off the continuous-thrust loop does not change
the last segment. -/
theorem gradient_segments_last_cons (T : Transcend) (ps : PropulsionSystem) (ts : ℚ)
    (k i : ℕ) (st : OrbitalState) (hk : 0 < k) :
    (gradient_segments T ps ts (k + 1) i st).1.getLast?
      = (gradient_segments T ps ts k (i + 1) (propagate_orbit T st ts)).1.getLast? := by
  have hne := gradient_segments_ne_nil T ps ts k (i + 1) (propagate_orbit T st ts) hk
  simp only [gradient_segments]
  cases htail : (gradient_segments T ps ts k (i + 1) (propagate_orbit T st ts)).1 with
  | nil => exact absurd htail hne
  | cons b rest => rw [List.getLast?_cons_cons]

/-- The last segment of the continuous-thrust loop ends at `(i + k) * ts`. -/
theorem gradient_segments_last (T : Transcend) (ps : PropulsionSystem) (ts : ℚ) :
    ∀ (k i : ℕ) (st : OrbitalState), 0 < k →
      ((gradient_segments T ps ts k i st).1.getLast?.map (·.end_time))
        = some (((i + k : ℕ) : ℚ) * ts) := by
  intro k
  induction k with
  | zero => intro i st hk; exact absurd hk (by norm_num)
  | succ k2 ih =>
      intro i st hk
      rcases Nat.eq_zero_or_pos k2 with h2 | h2
      · subst h2
        simp only [gradient_segments, List.getLast?_singleton, Option.map_some']
        norm_num
      · rw [gradient_segments_last_cons T ps ts k2 i st h2]
        rw [ih (i + 1) (propagate_orbit T st ts) h2]
        congr 1
        push_cast
        ring

/-- C4: every trajectory produced by the three strategies satisfies the
invariant: `total_delta_v` is the sum of its segments' delta-v values and
`total_time` is the span of the segment sequence (last end time minus
first start time). -/
theorem claim_C4_trajectory_totals_invariant (T : Transcend) (ps : PropulsionSystem)
    (initial_state target_state : OrbitalState) (target_altitude max_time : ℚ)
    (pops : ℕ → List (List ℚ)) (max_impulses : ℕ) (time_constraint : Option ℚ)
    (hne : ∀ g, pops g ≠ []) :
    ((optimize_hohmann_transfer T initial_state target_altitude ps).total_delta_v
        = ((optimize_hohmann_transfer T initial_state target_altitude ps).segments.map
            (·.delta_v)).sum
      ∧ (optimize_hohmann_transfer T initial_state target_altitude ps).total_time
        = sequence_span (optimize_hohmann_transfer T initial_state target_altitude ps))
    ∧ ((optimize_multi_impulse_trajectory T pops initial_state target_state ps
          max_impulses time_constraint).total_delta_v
        = ((optimize_multi_impulse_trajectory T pops initial_state target_state ps
            max_impulses time_constraint).segments.map (·.delta_v)).sum
      ∧ (optimize_multi_impulse_trajectory T pops initial_state target_state ps
          max_impulses time_constraint).total_time
        = sequence_span (optimize_multi_impulse_trajectory T pops initial_state
            target_state ps max_impulses time_constraint))
    ∧ ((optimize_continuous_thrust_trajectory T initial_state target_state ps
          max_time).total_delta_v
        = ((optimize_continuous_thrust_trajectory T initial_state target_state ps
            max_time).segments.map (·.delta_v)).sum
      ∧ (optimize_continuous_thrust_trajectory T initial_state target_state ps
          max_time).total_time
        = sequence_span (optimize_continuous_thrust_trajectory T initial_state
            target_state ps max_time)) := by
  refine ⟨⟨?_, ?_⟩, ?_, ⟨?_, ?_⟩⟩
  · simp [optimize_hohmann_transfer, calculate_hohmann_transfer]
  · simp [optimize_hohmann_transfer, sequence_span, List.getLast?_cons_cons,
      List.getLast?_singleton]
  · rw [multi_impulse_eq_fallback T pops initial_state target_state ps
      max_impulses time_constraint]
    constructor
    · simp [simple_two_impulse_transfer]
    · simp [simple_two_impulse_transfer, sequence_span]
  · simp only [optimize_continuous_thrust_trajectory, gradient_optimization]
    exact gradient_segments_sum_dv T ps (max_time / 20) 20 0 initial_state
  · simp only [optimize_continuous_thrust_trajectory, gradient_optimization,
      sequence_span]
    rw [gradient_segments_last T ps (max_time / 20) 20 0 initial_state (by norm_num)]
    rw [gradient_segments_head T ps (max_time / 20) 20 0 initial_state (by norm_num)]
    simp only [Option.map_some', Option.getD_some]
    push_cast
    ring

/-- Witness for C4 at concrete inputs. -/
theorem claim_C4_witness :
    (optimize_hohmann_transfer unitT ⟨⟨7000, 0, 0⟩, ⟨0, 15/2, 0⟩, 0⟩ 800
        monopropellant).total_delta_v
      = ((optimize_hohmann_transfer unitT ⟨⟨7000, 0, 0⟩, ⟨0, 15/2, 0⟩, 0⟩ 800
          monopropellant).segments.map (·.delta_v)).sum
    ∧ (optimize_continuous_thrust_trajectory unitT ⟨⟨7000, 0, 0⟩, ⟨0, 15/2, 0⟩, 0⟩
        ⟨⟨0, 7000, 0⟩, ⟨-(15/2), 0, 0⟩, 0⟩ monopropellant 86400).total_time
      = sequence_span (optimize_continuous_thrust_trajectory unitT
          ⟨⟨7000, 0, 0⟩, ⟨0, 15/2, 0⟩, 0⟩ ⟨⟨0, 7000, 0⟩, ⟨-(15/2), 0, 0⟩, 0⟩
          monopropellant 86400) :=
  have h := claim_C4_trajectory_totals_invariant unitT monopropellant
    ⟨⟨7000, 0, 0⟩, ⟨0, 15/2, 0⟩, 0⟩ ⟨⟨0, 7000, 0⟩, ⟨-(15/2), 0, 0⟩, 0⟩ 800 86400
    (fun _ => [[1/2, 1/2]]) 3 none (fun g => by simp)
  ⟨h.1.1, h.2.2.2⟩
